import Mathlib

/-!
Shallow embedding of the ML model-lifecycle and post-processing core of
`colmap-expanded` (`src/colmap/ml/`), together with proofs settling the
frozen claims about it.

Conventions of the embedding:
* C++ `float`/`double` values that are only compared, added, multiplied or
  divided are modelled as exact rationals `ℚ`; descriptor normalization,
  which takes a square root, is modelled over `ℝ`.
* C++ `int` is modelled as `Int`; the single `static_cast<size_t>` is
  modelled as reduction modulo `2 ^ 64`.
* Parallel-array loops (`for i < a.size(): use a[i], b[i]`) are modelled by
  zipping the two lists.
* `std::sort` over index vectors is modelled as a deterministic descending
  insertion sort on the same comparator key.
* Functions that can throw (`std::stoi` / `std::stof` inside `Load`) are
  modelled in `Except String`; an `Except.error` models a C++ exception
  escaping the function.
* Member functions become functions taking and returning an explicit state
  record; the state record carries an `init_count` field counting the calls
  to the private `InitializeModel` helper, so that "initializes once" is
  expressible.
-/

namespace Colmap

/-- A detected keypoint: pixel position plus a 2x2 affine shape matrix,
mirroring `colmap::FeatureKeypoint`. -/
structure FeatureKeypoint where
  x : ℚ
  y : ℚ
  a11 : ℚ
  a12 : ℚ
  a21 : ℚ
  a22 : ℚ
deriving DecidableEq

/-- Models `colmap::MLBackend`. -/
inductive MLBackend
  | PYTORCH
  | TENSORFLOW
  | ONNX
  | OPENVINO
deriving DecidableEq

/-- Models `colmap::MLDevice`. -/
inductive MLDevice
  | CPU
  | CUDA
  | OPENCL
  | VULKAN
deriving DecidableEq, BEq

/-- Models `colmap::MLModelType`; the `SUPERPONT_DETECTOR` spelling is the
source's own. -/
inductive MLModelType
  | SUPERPONT_DETECTOR
  | SUPERGLUE_MATCHER
  | LOFTR_MATCHER
  | DISK_DETECTOR
  | R2D2_DETECTOR
  | MVSNET_MVS
  | NERF_RENDERER
  | INSTANT_NGP
deriving DecidableEq

/-- Models `colmap::MLModelConfig`. The `parameters` map is modelled as an
association list. -/
structure MLModelConfig where
  model_path : String := ""
  backend : MLBackend := .PYTORCH
  device : MLDevice := .CPU
  use_fp16 : Bool := false
  batch_size : Int := 1
  confidence_threshold : ℚ := mkRat 1 2
  parameters : List (String × String) := []
deriving DecidableEq

/-- Models `colmap::SuperPointConfig` with the header's default values. -/
structure SuperPointConfig where
  max_keypoints : Int := 1024
  keypoint_threshold : ℚ := mkRat 1 200
  remove_borders : Bool := true
  border_margin : Int := 4
  use_nms : Bool := true
  nms_radius : ℚ := 4
  compute_descriptors : Bool := true
  descriptor_dim : Int := 256
  descriptor_threshold : ℚ := mkRat 1 10
deriving DecidableEq

/-- Models `colmap::DISKConfig` with the header's default values. -/
structure DISKConfig where
  max_keypoints : Int := 2048
  keypoint_threshold : ℚ := mkRat 1 200
  remove_borders : Bool := true
  border_margin : Int := 4
  use_nms : Bool := true
  nms_radius : ℚ := 4
  compute_descriptors : Bool := true
  descriptor_dim : Int := 128
  descriptor_threshold : ℚ := mkRat 1 10
  soft_threshold : ℚ := mkRat 1 10
  patch_size : Int := 32
  use_rotation_invariance : Bool := true
  rotation_threshold : ℚ := mkRat 1 10
  use_scale_invariance : Bool := true
  scale_threshold : ℚ := mkRat 1 10
deriving DecidableEq

/-- Models `colmap::LoFTRConfig` with the header's default values. -/
structure LoFTRConfig where
  match_threshold : ℚ := mkRat 1 5
  max_keypoints : Int := 2048
  use_mutual_check : Bool := true
  mutual_threshold : ℚ := mkRat 4 5
  coarse_window_size : Int := 8
  fine_window_size : Int := 2
  coarse_level : Int := 4
  fine_level : Int := 2
  coarse_threshold : ℚ := mkRat 1 5
  fine_threshold : ℚ := mkRat 1 10
  num_heads : Int := 8
  feature_dim : Int := 256
  use_positional_encoding : Bool := true
  temperature : ℚ := mkRat 1 10
deriving DecidableEq

/-- Models `colmap::SuperGlueConfig` with the header's default values. -/
structure SuperGlueConfig where
  match_threshold : ℚ := mkRat 1 5
  max_keypoints : Int := 1024
  use_mutual_check : Bool := true
  mutual_threshold : ℚ := mkRat 4 5
  use_ratio_test : Bool := false
  ratio_threshold : ℚ := mkRat 4 5
  sinkhorn_iterations : Int := 20
  sinkhorn_threshold : ℚ := mkRat 1 10000
  use_superglue : Bool := true
  superglue_threshold : ℚ := mkRat 1 5
deriving DecidableEq

/-- Models `static_cast<size_t>` applied to a C++ `int`: reduction modulo `2^64`
(a negative count becomes a huge unsigned value). -/
def sizeTCast (n : Int) : Nat :=
  (n % (2 ^ 64 : Int)).toNat

/-- One step of the deterministic descending insertion sort used to model
`std::sort(indices, comp)` with comparator `comp a b = key a > key b`:
`i` is inserted before the first element whose key is not greater than
`key i`, so equal keys keep their original order. -/
def insertDesc (key : Nat → ℚ) (i : Nat) : List Nat → List Nat
  | [] => [i]
  | j :: rest => if key j > key i then j :: insertDesc key i rest else i :: j :: rest

/-- Deterministic model of `std::sort` on an index vector, descending by
`key`. -/
def sortIdxDesc (key : Nat → ℚ) (l : List Nat) : List Nat :=
  l.foldr (insertDesc key) []

/-- The keep-condition of the loop in
`SuperPointDetector::FilterKeypoints`: score at or above the threshold,
and, when border removal is on, not within `border_margin` of the
hard-coded `width = 640` / `height = 480` bounds.  (The hard-coded bounds
are the source's; the function receives no image dimensions.) -/
def spKeep (cfg : SuperPointConfig) (kp : FeatureKeypoint) (s : ℚ) : Bool :=
  decide (cfg.keypoint_threshold ≤ s) &&
    !(cfg.remove_borders &&
      (decide (kp.x < (cfg.border_margin : ℚ)) ||
       decide (((640 - cfg.border_margin : Int) : ℚ) ≤ kp.x) ||
       decide (kp.y < (cfg.border_margin : ℚ)) ||
       decide (((480 - cfg.border_margin : Int) : ℚ) ≤ kp.y)))

/-- Models `SuperPointDetector::FilterKeypoints`: confidence + border filter,
then sort the survivors' indices by the survivors' scores (descending) and
keep at most `max_keypoints`. -/
def SuperPointFilterKeypoints (keypoints : List FeatureKeypoint) (scores : List ℚ)
    (cfg : SuperPointConfig) : List FeatureKeypoint :=
  let filtered := (keypoints.zip scores).filter (fun p => spKeep cfg p.1 p.2)
  let fk := filtered.map Prod.fst
  let fs := filtered.map Prod.snd
  let idx := sortIdxDesc (fun a => fs.getD a 0) (List.range fk.length)
  let num := min (sizeTCast cfg.max_keypoints) idx.length
  (idx.take num).map (fun i => fk.getD i ⟨0, 0, 0, 0, 0, 0⟩)

/-- The keep-condition of the loop in `DISKDetector::FilterKeypoints`;
identical rule to the SuperPoint one, including the hard-coded
`640 x 480` border bounds. -/
def dkKeep (cfg : DISKConfig) (kp : FeatureKeypoint) (s : ℚ) : Bool :=
  decide (cfg.keypoint_threshold ≤ s) &&
    !(cfg.remove_borders &&
      (decide (kp.x < (cfg.border_margin : ℚ)) ||
       decide (((640 - cfg.border_margin : Int) : ℚ) ≤ kp.x) ||
       decide (kp.y < (cfg.border_margin : ℚ)) ||
       decide (((480 - cfg.border_margin : Int) : ℚ) ≤ kp.y)))

/-- Models `DISKDetector::FilterKeypoints`.  Note the source's comparator
captures the ORIGINAL `scores` vector, not the survivors' scores, while
the sorted indices address the filtered vector. -/
def DISKFilterKeypoints (keypoints : List FeatureKeypoint) (scores : List ℚ)
    (cfg : DISKConfig) : List FeatureKeypoint :=
  let filtered := (keypoints.zip scores).filter (fun p => dkKeep cfg p.1 p.2)
  let fk := filtered.map Prod.fst
  let idx := sortIdxDesc (fun a => scores.getD a 0) (List.range fk.length)
  let num := min (sizeTCast cfg.max_keypoints) idx.length
  (idx.take num).map (fun i => fk.getD i ⟨0, 0, 0, 0, 0, 0⟩)

/-- Modelled from the spec: retain a keypoint iff
`margin <= x < width - margin` and `margin <= y < height - margin` for the
REAL image width and height.  Used only to compare the source's border
filter against the specified rule. -/
def specBorderRetain (margin width height : Int) (kp : FeatureKeypoint) : Bool :=
  decide ((margin : ℚ) ≤ kp.x) && decide (kp.x < ((width - margin : Int) : ℚ)) &&
    decide ((margin : ℚ) ≤ kp.y) && decide (kp.y < ((height - margin : Int) : ℚ))

/-- Models `DISKDetector::ApplySoftNMS`: the source is a placeholder that returns
the keypoint list unchanged, ignoring scores, radius and the NMS flag. -/
def DISKApplySoftNMS (keypoints : List FeatureKeypoint) (scores : List ℚ)
    (cfg : DISKConfig) : List FeatureKeypoint :=
  keypoints

/-- Squared Euclidean pixel distance between two keypoints. -/
def sqDist (p q : FeatureKeypoint) : ℚ :=
  (p.x - q.x) ^ 2 + (p.y - q.y) ^ 2

/-- Models `LoFTRMatcher::ApplyMutualCheck`: the source is a placeholder that
keeps exactly the pairs whose score is at least `mutual_threshold`; no
reciprocity is checked.  (`ms` stands for the source's `matches`
parameter, whose name is a Lean keyword.) -/
def ApplyMutualCheck (ms : List (Int × Int)) (scores : List ℚ)
    (cfg : LoFTRConfig) : List (Int × Int) :=
  ((ms.zip scores).filter (fun p => decide (cfg.mutual_threshold ≤ p.2))).map Prod.fst

/-- Models `colmap::SuperGlueResult`.  `match_pairs` models the source field
`matches` (a Lean keyword) and `match_fraction` models the source field
for the derived match ratio. -/
structure SuperGlueResult where
  match_pairs : List (Int × Int) := []
  match_scores : List ℚ := []
  mutual_matches : List Bool := []
  processing_time_ms : ℚ := 0
  num_matches : Int := 0
  match_fraction : ℚ := 0
deriving DecidableEq

/-- Models `SuperGlueMatcher::Match`.  The inference step is the source's own
deterministic placeholder (pair index `i` with index `i`); note the
source never assigns `match_scores`. -/
def SuperGlueMatch (loaded : Bool) (keypoints1 : List FeatureKeypoint)
    (descriptors1 : List (List ℚ)) (keypoints2 : List FeatureKeypoint)
    (descriptors2 : List (List ℚ)) (cfg : SuperGlueConfig) : SuperGlueResult :=
  if !loaded then {}
  else if keypoints1.isEmpty || keypoints2.isEmpty ||
      descriptors1.isEmpty || descriptors2.isEmpty then {}
  else
    let num := min keypoints1.length keypoints2.length
    { match_pairs := (List.range num).map (fun i => ((i : Int), (i : Int))) }

/-- The numeric value of a decimal digit character. -/
def digitVal (c : Char) : Int :=
  (c.toNat : Int) - 48

/-- Models `std::stoi`: skip leading spaces, read an optional sign, then
at least one decimal digit; with no digit it throws
`std::invalid_argument`, modelled as `Except.error`. -/
def cppStoi (s : String) : Except String Int :=
  let cs := s.toList.dropWhile (fun c => c = ' ' || c = '\t' || c = '\n')
  let signAndRest : Int × List Char :=
    match cs with
    | '-' :: rest => (-1, rest)
    | '+' :: rest => (1, rest)
    | _ => (1, cs)
  let digits := signAndRest.2.takeWhile Char.isDigit
  if digits.isEmpty then .error "std::invalid_argument: stoi"
  else .ok (signAndRest.1 * digits.foldl (fun acc c => acc * 10 + digitVal c) 0)

/-- Models `std::stof` on the decimal forms the repository uses: optional
sign, integer digits, optional fraction digits; no digit at all throws
`std::invalid_argument`. -/
def cppStof (s : String) : Except String ℚ :=
  let cs := s.toList.dropWhile (fun c => c = ' ' || c = '\t' || c = '\n')
  let signAndRest : ℚ × List Char :=
    match cs with
    | '-' :: rest => (-1, rest)
    | '+' :: rest => (1, rest)
    | _ => (1, cs)
  let intDigits := signAndRest.2.takeWhile Char.isDigit
  let afterInt := signAndRest.2.drop intDigits.length
  let fracDigits :=
    match afterInt with
    | '.' :: rest => rest.takeWhile Char.isDigit
    | _ => []
  if intDigits.isEmpty && fracDigits.isEmpty then .error "std::invalid_argument: stof"
  else
    let ip : Int := intDigits.foldl (fun acc c => acc * 10 + digitVal c) 0
    let fp : Int := fracDigits.foldl (fun acc c => acc * 10 + digitVal c) 0
    .ok (signAndRest.1 * ((ip : ℚ) + mkRat fp (10 ^ fracDigits.length)))

/-- Mutable state of a `SuperPointDetector` instance.  `init_count`
instruments the number of `InitializeModel` calls so that "a single
effective initialization" is expressible; `model_ptr` models the opaque
backend pointer (the source stores the dummy address `0x12345678`). -/
structure SPState where
  loaded : Bool := false
  backend : MLBackend := .PYTORCH
  device : MLDevice := .CPU
  config : SuperPointConfig := {}
  model_ptr : Option Nat := none
  init_count : Nat := 0
deriving DecidableEq

/-- One iteration of the parameter loop in `SuperPointDetector::Load`:
recognized keys are parsed with `std::stoi`/`std::stof` (which may
throw); unrecognized keys are ignored. -/
def spApplyParam (cfg : SuperPointConfig) (kv : String × String) :
    Except String SuperPointConfig :=
  if kv.1 = "max_keypoints" then
    match cppStoi kv.2 with
    | .error e => .error e
    | .ok v => .ok { cfg with max_keypoints := v }
  else if kv.1 = "keypoint_threshold" then
    match cppStof kv.2 with
    | .error e => .error e
    | .ok v => .ok { cfg with keypoint_threshold := v }
  else if kv.1 = "nms_radius" then
    match cppStof kv.2 with
    | .error e => .error e
    | .ok v => .ok { cfg with nms_radius := v }
  else .ok cfg

/-- The whole parameter loop of `SuperPointDetector::Load`. -/
def spParseParams : List (String × String) → SuperPointConfig →
    Except String SuperPointConfig
  | [], cfg => .ok cfg
  | kv :: rest, cfg =>
    match spApplyParam cfg kv with
    | .error e => .error e
    | .ok cfg2 => spParseParams rest cfg2

/-- Models `SuperPointDetector::Load`: early-return `true` when already loaded;
otherwise store backend/device, run the parameter loop (whose
`std::stoi`/`std::stof` calls may throw — nothing catches them here), then
`InitializeModel` (which always succeeds, storing the dummy pointer) and
mark the model loaded. -/
def SuperPointLoad (mc : MLModelConfig) (s : SPState) :
    Except String (Bool × SPState) :=
  if s.loaded then .ok (true, s)
  else
    match spParseParams mc.parameters s.config with
    | .error e => .error e
    | .ok cfg =>
      .ok (true,
        { s with
          backend := mc.backend
          device := mc.device
          config := cfg
          model_ptr := some 0x12345678
          init_count := s.init_count + 1
          loaded := true })

/-- Models `SuperPointDetector::Unload`: early return when not loaded; otherwise
release the model pointer and clear the loaded flag.  Never throws. -/
def SPUnload (s : SPState) : SPState :=
  if !s.loaded then s
  else { s with model_ptr := none, loaded := false }

/-- A registered model handle: the shared-pointer identity plus the
`GetType()` value the registry reads from it. -/
structure MLModelRef where
  id : Nat
  type : MLModelType
deriving DecidableEq

/-- Models the `std::unordered_map` bracket-assignment style insert on an association list:
overwrite the existing binding for the key, else append. -/
def mapInsert (k : String) (v : MLModelRef) :
    List (String × MLModelRef) → List (String × MLModelRef)
  | [] => [(k, v)]
  | (k2, v2) :: rest =>
    if k2 = k then (k, v) :: rest else (k2, v2) :: mapInsert k v rest

/-- Models `std::unordered_map::find` on an association list of models. -/
def mapFind (k : String) : List (String × MLModelRef) → Option MLModelRef
  | [] => none
  | (k2, v) :: rest => if k2 = k then some v else mapFind k rest

/-- Insert for the `model_type_map` (kind → name). -/
def typeMapInsert (k : MLModelType) (v : String) :
    List (MLModelType × String) → List (MLModelType × String)
  | [] => [(k, v)]
  | (k2, v2) :: rest =>
    if k2 = k then (k, v) :: rest else (k2, v2) :: typeMapInsert k v rest

/-- The `MLManager` singleton's state. -/
structure MLManagerState where
  models : List (String × MLModelRef) := []
  model_type_map : List (MLModelType × String) := []
  cache_directory : String := ""
  download_enabled : Bool := true
  default_device : MLDevice := .CPU
deriving DecidableEq

/-- Models `MLManager::RegisterModel`: fail on a null model reference; otherwise
bind name → model and kind → name, overwriting prior bindings. -/
def RegisterModel (name : String) (model : Option MLModelRef)
    (st : MLManagerState) : Bool × MLManagerState :=
  match model with
  | none => (false, st)
  | some m =>
    (true,
      { st with
        models := mapInsert name m st.models
        model_type_map := typeMapInsert m.type name st.model_type_map })

/-- Models `MLManager::GetModel(name)`: the bound instance, or `none` for the
source's `nullptr` "not found" result. -/
def GetModel (name : String) (st : MLManagerState) : Option MLModelRef :=
  mapFind name st.models

/-- Models `MLManager::GetAvailableDevices`: unconditionally `[CPU, CUDA]` — the
source pushes `CUDA` under a `TODO` without any runtime detection. -/
def GetAvailableDevices (st : MLManagerState) : List MLDevice :=
  [.CPU, .CUDA]

/-- Models `MLManager::IsDeviceAvailable`. -/
def IsDeviceAvailable (d : MLDevice) (st : MLManagerState) : Bool :=
  (GetAvailableDevices st).contains d

/-- Models `MLManager::SetDefaultDevice`: assign only when the device is
available, else leave the state unchanged (warning only). -/
def SetDefaultDevice (d : MLDevice) (st : MLManagerState) : MLManagerState :=
  if IsDeviceAvailable d st then { st with default_device := d } else st

/-- Sum of squared entries of a descriptor vector (`desc.squaredNorm()`).
Descriptors are modelled over `ℝ` because normalization divides by a
square root. -/
def sumSq (d : List ℝ) : ℝ :=
  (d.map (fun x => x * x)).sum

/-- Euclidean norm of a descriptor (`desc.norm()`). -/
noncomputable def l2norm (d : List ℝ) : ℝ :=
  Real.sqrt (sumSq d)

/-- The per-descriptor body of the loop in
`DISKDetector::NormalizeDescriptors`: divide by the norm when it is
strictly positive, else push the descriptor unchanged. -/
noncomputable def normalizeDesc (d : List ℝ) : List ℝ :=
  if 0 < l2norm d then d.map (fun x => x / l2norm d) else d

/-- Models `DISKDetector::NormalizeDescriptors`. -/
noncomputable def NormalizeDescriptors (ds : List (List ℝ)) : List (List ℝ) :=
  ds.map normalizeDesc

/-- Concrete `MLModelConfig` used to witness the load/unload lifecycle
claim: one recognized, well-formed override parameter. -/
def spWitnessMC : MLModelConfig :=
  { parameters := [("max_keypoints", "512")] }

/-- The state `SuperPointLoad spWitnessMC` reaches from the
freshly-constructed state. -/
def spWitnessLoaded : SPState :=
  { loaded := true
    config := { max_keypoints := 512 }
    model_ptr := some 0x12345678
    init_count := 1 }

end Colmap

namespace Colmap

/-- Claim C1: the confidence+border filters are claimed to discard exactly
the keypoints within `border_margin` of the REAL image bounds.  The
source's filters use hard-coded `640 x 480` bounds instead: with the
default margin 4 they drop `(700, 400)` although it is interior to a
`1000 x 800` image, and keep `(98, 50)` although it is within 4 pixels of
the right edge of a `100 x 100` image. -/
theorem borderFilterUsesHardcodedBounds :
    SuperPointFilterKeypoints [⟨700, 400, 1, 0, 0, 1⟩] [1] {} = [] ∧
    specBorderRetain 4 1000 800 ⟨700, 400, 1, 0, 0, 1⟩ = true ∧
    SuperPointFilterKeypoints [⟨98, 50, 1, 0, 0, 1⟩] [1] {} = [⟨98, 50, 1, 0, 0, 1⟩] ∧
    specBorderRetain 4 100 100 ⟨98, 50, 1, 0, 0, 1⟩ = false ∧
    DISKFilterKeypoints [⟨700, 400, 1, 0, 0, 1⟩] [1] {} = [] ∧
    DISKFilterKeypoints [⟨98, 50, 1, 0, 0, 1⟩] [1] {} = [⟨98, 50, 1, 0, 0, 1⟩] := by
  refine ⟨?_, ?_, ?_, ?_, ?_, ?_⟩ <;> decide

/-- Claim C2: the mutual-consistency filter is claimed to keep `(i, j)`
iff the pair is a reciprocal best match with score at least
`mutual_threshold`.  The source's `ApplyMutualCheck` only thresholds: on
pairs `(0, 1)` score `9/10` and `(0, 2)` score `8/10` with threshold
`1/2` it keeps both, so the left index `0` appears twice, and `(0, 2)` is
kept although `2` is not `0`'s best-scoring partner. -/
theorem mutualCheckOnlyThresholds :
    ApplyMutualCheck [(0, 1), (0, 2)] [mkRat 9 10, mkRat 8 10]
        { mutual_threshold := mkRat 1 2 } = [(0, 1), (0, 2)] ∧
    ((ApplyMutualCheck [(0, 1), (0, 2)] [mkRat 9 10, mkRat 8 10]
        { mutual_threshold := mkRat 1 2 }).map Prod.fst).count 0 = 2 ∧
    mkRat 8 10 < mkRat 9 10 := by
  refine ⟨?_, ?_, ?_⟩ <;> decide

/-- Claim C3: with NMS enabled, any two distinct retained keypoints are
claimed to be at least `nms_radius` apart.  The source's
`DISKDetector::ApplySoftNMS` is a placeholder returning its input
unchanged (and `SuperPointDetector::Detect`'s NMS branch only logs), so
two keypoints at pixel distance `1 < 4 = nms_radius` are both retained
under the default config, whose `use_nms` is `true`. -/
theorem softNMSRetainsCloseKeypoints :
    DISKApplySoftNMS [⟨10, 10, 1, 0, 0, 1⟩, ⟨10, 11, 1, 0, 0, 1⟩]
        [mkRat 9 10, mkRat 8 10] {} =
      [⟨10, 10, 1, 0, 0, 1⟩, ⟨10, 11, 1, 0, 0, 1⟩] ∧
    (({} : DISKConfig).use_nms = true ∧ ({} : DISKConfig).nms_radius = 4) ∧
    sqDist ⟨10, 10, 1, 0, 0, 1⟩ ⟨10, 11, 1, 0, 0, 1⟩ < 4 ^ 2 := by
  refine ⟨rfl, ⟨rfl, rfl⟩, ?_⟩
  show ((10 : ℚ) - 10) ^ 2 + ((10 : ℚ) - 11) ^ 2 < 4 ^ 2
  norm_num

/-- Claim C4: the filtered result is claimed to keep exactly the
`max_keypoints` highest-scoring survivors.  `DISKDetector`'s comparator
reads the ORIGINAL scores array at positions of the filtered array: with
`(0, 0)` (score `9/10`, removed at the border), `(50, 50)` (score
`2/10`) and `(60, 60)` (score `8/10`), `max_keypoints = 1` keeps
`(50, 50)` — ranked by the dropped keypoint's score `9/10` — instead of
the highest-scoring survivor `(60, 60)`, which the SuperPoint twin (using
the survivors' scores) correctly returns. -/
theorem diskTopKUsesWrongScores :
    DISKFilterKeypoints
        [⟨0, 0, 1, 0, 0, 1⟩, ⟨50, 50, 1, 0, 0, 1⟩, ⟨60, 60, 1, 0, 0, 1⟩]
        [mkRat 9 10, mkRat 2 10, mkRat 8 10]
        { max_keypoints := 1, keypoint_threshold := mkRat 1 10 } =
      [⟨50, 50, 1, 0, 0, 1⟩] ∧
    DISKFilterKeypoints
        [⟨0, 0, 1, 0, 0, 1⟩, ⟨50, 50, 1, 0, 0, 1⟩, ⟨60, 60, 1, 0, 0, 1⟩]
        [mkRat 9 10, mkRat 2 10, mkRat 8 10]
        { max_keypoints := 2, keypoint_threshold := mkRat 1 10 } =
      [⟨50, 50, 1, 0, 0, 1⟩, ⟨60, 60, 1, 0, 0, 1⟩] ∧
    SuperPointFilterKeypoints
        [⟨0, 0, 1, 0, 0, 1⟩, ⟨50, 50, 1, 0, 0, 1⟩, ⟨60, 60, 1, 0, 0, 1⟩]
        [mkRat 9 10, mkRat 2 10, mkRat 8 10]
        { max_keypoints := 1, keypoint_threshold := mkRat 1 10 } =
      [⟨60, 60, 1, 0, 0, 1⟩] ∧
    mkRat 2 10 < mkRat 8 10 := by
  refine ⟨?_, ?_, ?_, ?_⟩ <;> decide

/-- Claim C5: `Load` is claimed never to propagate an exception, even for
a malformed numeric parameter string.  `SuperPointDetector::Load` parses
`"max_keypoints"` with `std::stoi` outside any try/catch, so on the value
`"abc"` the `std::invalid_argument` escapes to the caller (and
`MLManager::LoadModel` does not catch it either). -/
theorem loadPropagatesStoiException :
    SuperPointLoad { parameters := [("max_keypoints", "abc")] } {} =
      .error "std::invalid_argument: stoi" := by
  rfl

/-- Claim C6: a matcher's result is claimed to carry a score sequence
parallel to its pair sequence.  A loaded `SuperGlueMatcher::Match` on one
keypoint/descriptor per side returns one match pair but never assigns
`match_scores`, so the lengths are 1 and 0. -/
theorem superGlueScoresNotParallel :
    (SuperGlueMatch true [⟨10, 10, 1, 0, 0, 1⟩] [[1]]
        [⟨20, 20, 1, 0, 0, 1⟩] [[1]] {}).match_pairs.length = 1 ∧
    (SuperGlueMatch true [⟨10, 10, 1, 0, 0, 1⟩] [[1]]
        [⟨20, 20, 1, 0, 0, 1⟩] [[1]] {}).match_scores.length = 0 := by
  refine ⟨?_, ?_⟩ <;> decide

/-- Claim C7: loading twice yields `true` both times with a single
effective initialization (`init_count` rises exactly once and the second
call leaves the state untouched), and unloading an unloaded instance is a
no-op (`SPUnload s1` is unloaded, and unloading it again changes
nothing). -/
theorem loadUnloadIdempotent (mc : MLModelConfig) (s0 s1 : SPState) (b : Bool)
    (h0 : s0.loaded = false) (h : SuperPointLoad mc s0 = .ok (b, s1)) :
    b = true ∧ s1.loaded = true ∧ s1.init_count = s0.init_count + 1 ∧
    SuperPointLoad mc s1 = .ok (true, s1) ∧
    (SPUnload s1).loaded = false ∧ SPUnload (SPUnload s1) = SPUnload s1 := by
  unfold SuperPointLoad at h
  rw [h0] at h
  simp only [Bool.false_eq_true, if_false] at h
  cases hp : spParseParams mc.parameters s0.config with
  | error e => rw [hp] at h; exact absurd h (by simp)
  | ok cfg =>
    rw [hp] at h
    rw [Except.ok.injEq, Prod.mk.injEq] at h
    obtain ⟨hb, hs⟩ := h
    subst hb hs
    refine ⟨rfl, rfl, rfl, ?_, ?_, ?_⟩
    · unfold SuperPointLoad
      rfl
    · rfl
    · rfl

/-- Witness for the load/unload idempotence claim at a concrete config
and the freshly-constructed state. -/
theorem loadUnloadIdempotentWitness :
    true = true ∧ spWitnessLoaded.loaded = true ∧
    spWitnessLoaded.init_count = ({} : SPState).init_count + 1 ∧
    SuperPointLoad spWitnessMC spWitnessLoaded = .ok (true, spWitnessLoaded) ∧
    (SPUnload spWitnessLoaded).loaded = false ∧
    SPUnload (SPUnload spWitnessLoaded) = SPUnload spWitnessLoaded :=
  loadUnloadIdempotent spWitnessMC {} spWitnessLoaded true rfl rfl

/-- Retrieval with `mapFind` after `mapInsert` at the same key returns the inserted
model: the previous binding for that name is gone. -/
theorem mapFind_insert (k : String) (v : MLModelRef)
    (l : List (String × MLModelRef)) : mapFind k (mapInsert k v l) = some v := by
  induction l with
  | nil => simp [mapInsert, mapFind]
  | cons p rest ih =>
    obtain ⟨k2, v2⟩ := p
    by_cases hk : k2 = k
    · simp [mapInsert, mapFind, hk]
    · simp [mapInsert, mapFind, hk, ih]

/-- Claim C8: `RegisterModel` fails exactly on an empty model reference;
re-registering a different model under a taken name succeeds and leaves
only the second model bound; `GetModel` on a never-registered name
returns `none` instead of failing. -/
theorem registerOverwritesAndGetModelTotal (name : String)
    (m : Option MLModelRef) (r1 r2 : MLModelRef) (st : MLManagerState)
    (hfresh : mapFind name st.models = none) :
    ((RegisterModel name m st).1 = false ↔ m = none) ∧
    (RegisterModel name (some r1) st).1 = true ∧
    (RegisterModel name (some r2) (RegisterModel name (some r1) st).2).1 = true ∧
    GetModel name (RegisterModel name (some r2)
      (RegisterModel name (some r1) st).2).2 = some r2 ∧
    GetModel name st = none := by
  refine ⟨?_, rfl, rfl, ?_, hfresh⟩
  · cases m <;> simp [RegisterModel]
  · show mapFind name (mapInsert name r2 (mapInsert name r1 st.models)) = some r2
    exact mapFind_insert name r2 _

/-- Witness for the registry claim: two distinct detector handles fight
over the name `"superpoint"` in the fresh registry. -/
theorem registerModelWitness :
    ((RegisterModel "superpoint" none {}).1 = false ↔
      (none : Option MLModelRef) = none) ∧
    (RegisterModel "superpoint" (some ⟨1, .SUPERPONT_DETECTOR⟩)
      ({} : MLManagerState)).1 = true ∧
    (RegisterModel "superpoint" (some ⟨2, .SUPERPONT_DETECTOR⟩)
      (RegisterModel "superpoint" (some ⟨1, .SUPERPONT_DETECTOR⟩)
        ({} : MLManagerState)).2).1 = true ∧
    GetModel "superpoint" (RegisterModel "superpoint"
      (some ⟨2, .SUPERPONT_DETECTOR⟩)
      (RegisterModel "superpoint" (some ⟨1, .SUPERPONT_DETECTOR⟩)
        ({} : MLManagerState)).2).2 = some ⟨2, .SUPERPONT_DETECTOR⟩ ∧
    GetModel "superpoint" ({} : MLManagerState) = none :=
  registerOverwritesAndGetModelTotal "superpoint" none
    ⟨1, .SUPERPONT_DETECTOR⟩ ⟨2, .SUPERPONT_DETECTOR⟩ {} rfl

/-- Descriptor sums of squares are nonnegative. -/
theorem sumSq_nonneg (d : List ℝ) : 0 ≤ sumSq d := by
  induction d with
  | nil => simp [sumSq]
  | cons x xs ih =>
    simp only [sumSq, List.map_cons, List.sum_cons] at ih ⊢
    exact add_nonneg (mul_self_nonneg x) ih

/-- Scaling every entry by `1 / n` scales the sum of squares by
`1 / (n * n)`. -/
theorem sumSq_div (d : List ℝ) (n : ℝ) (hn : n ≠ 0) :
    sumSq (d.map (fun x => x / n)) = sumSq d / (n * n) := by
  induction d with
  | nil => simp [sumSq]
  | cons x xs ih =>
    simp only [sumSq, List.map_cons, List.sum_cons] at ih ⊢
    rw [ih, div_mul_div_comm, ← add_div]

/-- Dividing a positive-norm descriptor by its norm yields a unit-norm
descriptor. -/
theorem l2norm_normalize (d : List ℝ) (h : 0 < l2norm d) :
    l2norm (d.map (fun x => x / l2norm d)) = 1 := by
  have hS : 0 < sumSq d := Real.sqrt_pos.mp h
  have hn : Real.sqrt (sumSq d) ≠ 0 := ne_of_gt h
  unfold l2norm
  rw [sumSq_div d _ hn, Real.mul_self_sqrt (le_of_lt hS),
    div_self (ne_of_gt hS), Real.sqrt_one]

/-- Index-wise, `NormalizeDescriptors` acts index-wise as the per-descriptor body. -/
theorem normalizeDescriptors_getD (ds : List (List ℝ)) (i : Nat)
    (hi : i < ds.length) :
    (NormalizeDescriptors ds).getD i [] = normalizeDesc (ds.getD i []) := by
  induction ds generalizing i with
  | nil => simp at hi
  | cons d rest ih =>
    cases i with
    | zero => rfl
    | succ n => exact ih n (Nat.lt_of_succ_lt_succ hi)

/-- Claim C9: `NormalizeDescriptors` keeps the length; every descriptor
with strictly positive Euclidean norm is replaced by itself divided by
that norm (so its output norm is 1), and every zero-norm descriptor is
passed through unchanged. -/
theorem descriptorNormalization (ds : List (List ℝ)) (i : Nat)
    (hi : i < ds.length) :
    (NormalizeDescriptors ds).length = ds.length ∧
    (0 < l2norm (ds.getD i []) →
      (NormalizeDescriptors ds).getD i [] =
        (ds.getD i []).map (fun x => x / l2norm (ds.getD i [])) ∧
      l2norm ((NormalizeDescriptors ds).getD i []) = 1) ∧
    (l2norm (ds.getD i []) = 0 →
      (NormalizeDescriptors ds).getD i [] = ds.getD i []) := by
  have hg := normalizeDescriptors_getD ds i hi
  refine ⟨by simp [NormalizeDescriptors], fun hpos => ?_, fun hzero => ?_⟩
  · rw [hg]
    unfold normalizeDesc
    rw [if_pos hpos]
    exact ⟨rfl, l2norm_normalize _ hpos⟩
  · rw [hg]
    unfold normalizeDesc
    rw [if_neg (by rw [hzero]; exact lt_irrefl 0)]

/-- The norm of the concrete descriptor `[3, 4]` is `5`. -/
theorem l2norm_three_four : l2norm [(3 : ℝ), 4] = 5 := by
  unfold l2norm sumSq
  simp only [List.map_cons, List.map_nil, List.sum_cons, List.sum_nil]
  rw [show (3 : ℝ) * 3 + (4 * 4 + 0) = 5 ^ 2 by norm_num,
    Real.sqrt_sq (by norm_num : (0 : ℝ) ≤ 5)]

/-- The norm of the zero descriptor `[0, 0]` is `0`. -/
theorem l2norm_zero_zero : l2norm [(0 : ℝ), 0] = 0 := by
  unfold l2norm sumSq
  simp

/-- Witness for the descriptor-normalization claim on the concrete input
`[[3, 4], [0, 0]]`: the first descriptor becomes `[3/5, 4/5]` with unit
norm, the zero descriptor passes through. -/
theorem descriptorNormalizationWitness :
    (NormalizeDescriptors [[(3 : ℝ), 4], [0, 0]]).length = 2 ∧
    (NormalizeDescriptors [[(3 : ℝ), 4], [0, 0]]).getD 0 [] = [3 / 5, 4 / 5] ∧
    l2norm ((NormalizeDescriptors [[(3 : ℝ), 4], [0, 0]]).getD 0 []) = 1 ∧
    (NormalizeDescriptors [[(3 : ℝ), 4], [0, 0]]).getD 1 [] = [0, 0] := by
  have h0 : (0 : ℝ) < l2norm ([[(3 : ℝ), 4], [0, 0]].getD 0 []) := by
    show (0 : ℝ) < l2norm [(3 : ℝ), 4]
    rw [l2norm_three_four]; norm_num
  have hz : l2norm ([[(3 : ℝ), 4], [0, 0]].getD 1 []) = 0 := l2norm_zero_zero
  obtain ⟨hlen, hpos, -⟩ :=
    descriptorNormalization [[(3 : ℝ), 4], [0, 0]] 0 (by norm_num)
  obtain ⟨-, -, hzero⟩ :=
    descriptorNormalization [[(3 : ℝ), 4], [0, 0]] 1 (by norm_num)
  have hp := hpos h0
  refine ⟨hlen, ?_, hp.2, hzero hz⟩
  rw [hp.1]
  show [(3 : ℝ), 4].map (fun x => x / l2norm [(3 : ℝ), 4]) = [3 / 5, 4 / 5]
  rw [l2norm_three_four]
  rfl

/-- Claim C10: `GetAvailableDevices` is the constant `[CPU, CUDA]` — the
source appends `CUDA` without any runtime detection — so CUDA always
counts as available and `SetDefaultDevice CUDA` always sets the default
device, whatever the registry state. -/
theorem devicesAlwaysCpuCuda (st : MLManagerState) :
    GetAvailableDevices st = [.CPU, .CUDA] ∧
    IsDeviceAvailable .CUDA st = true ∧
    (SetDefaultDevice .CUDA st).default_device = .CUDA :=
  ⟨rfl, rfl, rfl⟩

end Colmap
